import Mathlib

/-!
Verification development for the OCR response-normalization layer:
two provider adapters (a structured-document API adapter and a
vision-model adapter) that turn heterogeneous provider JSON trees into
normalized text spans, plus the shared confidence filter and the
retry/backoff wrapper around the remote call.

Provider responses are modelled as a generic JSON-like value tree.
Numeric values are modelled as rationals; Python booleans pass the
numeric isinstance checks of the source, so they are carried as a
separate constructor and coerced where the source coerces them.
Operations of the source that can raise at runtime (subscripting a
non-sequence, converting a non-numeric value with float) are modelled
in the Except monad; total helper lookups return a null value for a
missing key, as dict.get does.
-/

namespace Ocr

/-- A generic JSON-like value: the shape of a provider response tree. -/
inductive JsonVal : Type where
  | null : JsonVal
  | bool (b : Bool) : JsonVal
  | num (q : ℚ) : JsonVal
  | str (s : String) : JsonVal
  | arr (items : List JsonVal) : JsonVal
  | obj (fields : List (String × JsonVal)) : JsonVal
deriving Repr

/-- A candidate item / node: a JSON object's field list (the adapters only
keep values that pass an isinstance dict check). -/
abbrev Item := List (String × JsonVal)

/-- Python truthiness of a JSON-like value (None, False, 0, empty string,
empty list and empty dict are falsy). -/
def pyTruthy : JsonVal → Bool
  | .null => false
  | .bool b => b
  | .num q => q ≠ 0
  | .str s => s ≠ ""
  | .arr items => ¬ items.isEmpty
  | .obj fields => ¬ fields.isEmpty

/-- Python `a or b`: the first operand when truthy, otherwise the second. -/
def pyOr (a b : JsonVal) : JsonVal := if pyTruthy a then a else b

/-- dict.get(key): the stored value, or null when the key is absent. -/
def dget (item : Item) (key : String) : JsonVal :=
  match item.find? (fun f => f.1 = key) with
  | some f => f.2
  | none => .null

/-- dict.get(key, default): the stored value, or the default when absent. -/
def dgetD (item : Item) (key : String) (dflt : JsonVal) : JsonVal :=
  match item.find? (fun f => f.1 = key) with
  | some f => f.2
  | none => dflt

/-- key `in` dict membership test. -/
def hasKey (item : Item) (key : String) : Bool :=
  item.any (fun f => f.1 = key)

/-- isinstance(v, (int, float)): true for numbers and for Python booleans,
which subclass int. -/
def numLike : JsonVal → Bool
  | .num _ => true
  | .bool _ => true
  | _ => false

/-- float(v) on a value that passed (or should have passed) a numeric check:
numbers map to themselves, booleans to 0/1; every other argument raises.
(Python's float also parses numeric strings; string arguments are modelled
as raising, and no theorem below evaluates float on a string.) -/
def toFloat : JsonVal → Except Unit ℚ
  | .num q => .ok q
  | .bool b => .ok (if b then 1 else 0)
  | _ => .error ()

/-- One normalized OCR text span (schemas.OcrTextSpan). -/
structure OcrTextSpan where
  text : String
  confidence : Option ℚ
  polygon : Option (List (ℚ × ℚ))
  line_index : Option ℕ
deriving Repr, DecidableEq

/-- The normalized result record (schemas.OcrResult). -/
structure OcrResult where
  backend : String
  task : Option String
  image_path : String
  blocks : List OcrTextSpan
  full_text : String
  raw : JsonVal
deriving Repr

/-- The per-span predicate of the confidence filter: keep a span when its
confidence is None or at least the threshold. -/
def keepSpan (minConf : ℚ) (b : OcrTextSpan) : Bool :=
  match b.confidence with
  | none => true
  | some c => minConf ≤ c

/-- The confidence filter applied identically by both adapters:
the list comprehension keeping spans with null confidence or
confidence >= min_conf. -/
def confFilter (minConf : ℚ) (blocks : List OcrTextSpan) : List OcrTextSpan :=
  blocks.filter (keepSpan minConf)

/-- Newline join of the text fields, as in full_text assembly. -/
def joinTexts (blocks : List OcrTextSpan) : String :=
  String.intercalate "\n" (blocks.map (fun b => b.text))

/-- str.strip(): drop whitespace from both ends. -/
def pyStrip (s : String) : String :=
  String.mk (((s.data.dropWhile Char.isWhitespace).reverse.dropWhile
    Char.isWhitespace).reverse)

/-- Text probing shared by both adapters: first key whose value is a string
with non-empty strip, returning the stripped value; otherwise the empty
string. -/
def probeText (item : Item) : List String → String
  | [] => ""
  | k :: ks =>
    match dget item k with
    | .str s => if pyStrip s = "" then probeText item ks else pyStrip s
    | _ => probeText item ks

/-- Confidence probing shared by both adapters: first key whose value
passes isinstance(value, (int, float)) — booleans included — coerced with
float(); otherwise None. -/
def probeConf (item : Item) : List String → Option ℚ
  | [] => none
  | k :: ks =>
    match dget item k with
    | .num q => some q
    | .bool b => some (if b then 1 else 0)
    | _ => probeConf item ks

/-- isinstance(v, (list, tuple)). -/
def isSeq : JsonVal → Bool
  | .arr _ => true
  | _ => false

/-- float() coercion of a value known to be numeric-like (used in the flat
interleaved-number branch, where every element already passed the numeric
isinstance check; the fallback 0 is unreachable there). -/
def numValOf : JsonVal → ℚ
  | .num q => q
  | .bool b => if b then 1 else 0
  | _ => 0

/-- zip(it, it) over one iterator: consume interleaved numbers two at a
time; a trailing odd element is silently dropped. -/
def pairUp : List ℚ → List (ℚ × ℚ)
  | a :: b :: rest => (a, b) :: pairUp rest
  | _ => []

/-- tuple(float(coord) for coord in point[:2]) for one entry of a point
list whose first element was a sequence. A sequence with at least two
entries yields an (x, y) pair when both convert; a shorter sequence builds
a tuple the span schema rejects, a string entry feeds characters to
float(), and a non-sequence entry cannot be sliced — all modelled as
raising. -/
def point2 : JsonVal → Except Unit (ℚ × ℚ)
  | .arr (a :: b :: _) =>
    match toFloat a, toFloat b with
    | .ok x, .ok y => .ok (x, y)
    | _, _ => .error ()
  | _ => .error ()

/-- The point-list comprehension: convert every entry, propagating the
first raise. -/
def mapPoints : List JsonVal → Except Unit (List (ℚ × ℚ))
  | [] => .ok []
  | p :: rest =>
    match point2 p, mapPoints rest with
    | .ok q, .ok qs => .ok (q :: qs)
    | .error e, _ => .error e
    | .ok _, .error e => .error e

/-- item.get("Polygon") or item.get("Quad") or item.get("Points"). -/
def aliyunGeomVal (item : Item) : JsonVal :=
  pyOr (dget item "Polygon") (pyOr (dget item "Quad") (dget item "Points"))

/-- Structured-document adapter polygon extraction: a non-empty list whose
first element is a sequence is treated as a point list; otherwise a list
all of whose elements are numeric is paired up as interleaved coordinates
(vacuously so for the empty list); anything else yields None. -/
def extractPolyA (item : Item) : Except Unit (Option (List (ℚ × ℚ))) :=
  match aliyunGeomVal item with
  | .arr [] => .ok (some [])
  | .arr (p0 :: rest) =>
    if isSeq p0 then Except.map some (mapPoints (p0 :: rest))
    else if (p0 :: rest).all numLike then
      .ok (some (pairUp ((p0 :: rest).map numValOf)))
    else .ok none
  | _ => .ok none

/-- bbox.get("w") or bbox.get("width") or 0.0. -/
def bboxW (b : Item) : JsonVal :=
  pyOr (dget b "w") (pyOr (dget b "width") (.num 0))

/-- bbox.get("h") or bbox.get("height") or 0.0. -/
def bboxH (b : Item) : JsonVal :=
  pyOr (dget b "h") (pyOr (dget b "height") (.num 0))

/-- Vision-model adapter bounding-box synthesis: float() each coordinate
(x and y default to 0.0 when absent), then return None unless width and
height are both positive, else the four box corners in order top-left,
top-right, bottom-right, bottom-left. -/
def polygonFromBbox (b : Item) : Except Unit (Option (List (ℚ × ℚ))) :=
  match toFloat (dgetD b "x" (.num 0)), toFloat (dgetD b "y" (.num 0)),
      toFloat (bboxW b), toFloat (bboxH b) with
  | .ok x, .ok y, .ok w, .ok h =>
    if w ≤ 0 ∨ h ≤ 0 then .ok none
    else .ok (some [(x, y), (x + w, y), (x + w, y + h), (x, y + h)])
  | _, _, _, _ => .error ()

/-- node.get("polygon") or node.get("points") or node.get("quad"). -/
def qwenGeomVal (node : Item) : JsonVal :=
  pyOr (dget node "polygon") (pyOr (dget node "points") (dget node "quad"))

/-- node.get("bbox") or node.get("bounding_box") or node.get("box"). -/
def qwenBboxVal (node : Item) : JsonVal :=
  pyOr (dget node "bbox") (pyOr (dget node "bounding_box") (dget node "box"))

/-- Vision-model adapter polygon extraction, in source order: first the
non-empty point list headed by a sequence; then a dict-shaped bounding
box; then the flat interleaved-number shape (vacuously matched by an
empty list); else None. -/
def extractPolyQ (node : Item) : Except Unit (Option (List (ℚ × ℚ))) :=
  match qwenGeomVal node, qwenBboxVal node with
  | .arr (p0 :: rest), bbox =>
    if isSeq p0 then Except.map some (mapPoints (p0 :: rest))
    else match bbox with
      | .obj b => polygonFromBbox b
      | _ =>
        if (p0 :: rest).all numLike then
          .ok (some (pairUp ((p0 :: rest).map numValOf)))
        else .ok none
  | .arr [], bbox =>
    match bbox with
    | .obj b => polygonFromBbox b
    | _ => .ok (some [])
  | _, bbox =>
    match bbox with
    | .obj b => polygonFromBbox b
    | _ => .ok none

/-- Envelope unwrapping of the structured-document response: descend into
body, then into Data when present, falling back to the prior level. -/
def extractBody (payload : JsonVal) : JsonVal :=
  match payload with
  | .obj fields =>
    match dget fields "body" with
    | .obj bodyFields => dgetD bodyFields "Data" (.obj bodyFields)
    | _ => payload
  | _ => payload

/-- Keep the list items that are dicts. -/
def dictsIn (items : List JsonVal) : List Item :=
  items.filterMap (fun v =>
    match v with
    | .obj f => some f
    | _ => none)

/-- Scan the data root for the known list-bearing keys in order,
concatenating the dict items under each. -/
def collectFromKeys (fields : Item) : List String → List Item
  | [] => []
  | k :: ks =>
    (match dget fields k with
     | .arr items => dictsIn items
     | _ => []) ++ collectFromKeys fields ks

/-- Candidate collection of the structured-document adapter. -/
def collectCandidates (data : JsonVal) : List Item :=
  match data with
  | .obj fields => collectFromKeys fields ["Results", "PrismWordsInfo", "Lines", "Blocks"]
  | _ => []

/-- any(key in data for key in ("text", "content", "value")). -/
def hasTextKey (fields : Item) : Bool :=
  ["text", "content", "value"].any (fun k => hasKey fields k)

mutual

/-- Recursive pre-order walk of the vision-model response tree: a dict
carrying a text-like key is collected before descending into its values;
lists are walked item by item; scalars contribute nothing. -/
def walkNodes : JsonVal → List Item
  | .obj fields => (if hasTextKey fields then [fields] else []) ++ walkFields fields
  | .arr items => walkItems items
  | _ => []

/-- Walk the values of a dict in field order. -/
def walkFields : List (String × JsonVal) → List Item
  | [] => []
  | (_, v) :: rest => walkNodes v ++ walkFields rest

/-- Walk the items of a list in order. -/
def walkItems : List JsonVal → List Item
  | [] => []
  | v :: rest => walkNodes v ++ walkItems rest

end

/-- raw.get("output"), the root of the vision-model walk. -/
def rawOutput (raw : JsonVal) : JsonVal :=
  match raw with
  | .obj fields => dget fields "output"
  | _ => .null

/-- The candidate nodes of one vision-model invocation. -/
def qwenCandidates (raw : JsonVal) : List Item :=
  walkNodes (rawOutput raw)

/-- The shared parse loop over enumerate(candidates): an item with empty
extracted text is skipped (its index slot is still consumed by enumerate);
otherwise confidence and polygon are extracted — polygon extraction may
raise — and a span carrying the enumerate index is emitted. -/
def parseGo (ft : Item → String) (fc : Item → Option ℚ)
    (fp : Item → Except Unit (Option (List (ℚ × ℚ)))) :
    ℕ → List Item → Except Unit (List OcrTextSpan)
  | _, [] => .ok []
  | i, item :: rest =>
    if ft item = "" then parseGo ft fc fp (i + 1) rest
    else
      match fp item, parseGo ft fc fp (i + 1) rest with
      | .ok poly, .ok restSpans =>
        .ok (⟨ft item, fc item, poly, some i⟩ :: restSpans)
      | .error e, _ => .error e
      | .ok _, .error e => .error e

/-- Text probing of the structured-document adapter. -/
def extractTextA (item : Item) : String :=
  probeText item ["Text", "Word", "Content", "text"]

/-- Confidence probing of the structured-document adapter. -/
def extractConfA (item : Item) : Option ℚ :=
  probeConf item ["Score", "Confidence", "Prob"]

/-- The candidate items of one structured-document invocation. -/
def aliyunCandidates (raw : JsonVal) : List Item :=
  collectCandidates (extractBody raw)

/-- The parse stage of the structured-document adapter. -/
def parseBlocksAliyun (raw : JsonVal) : Except Unit (List OcrTextSpan) :=
  parseGo extractTextA extractConfA extractPolyA 0 (aliyunCandidates raw)

/-- Text probing of the vision-model adapter. -/
def extractTextQ (node : Item) : String :=
  probeText node ["text", "content", "value"]

/-- Confidence probing of the vision-model adapter. -/
def extractConfQ (node : Item) : Option ℚ :=
  probeConf node ["confidence", "score", "probability", "prob"]

/-- The parse stage of the vision-model adapter. -/
def parseBlocksQwen (raw : JsonVal) : Except Unit (List OcrTextSpan) :=
  parseGo extractTextQ extractConfQ extractPolyQ 0 (qwenCandidates raw)

/-- The task label of the structured-document adapter: the alltext type
when truthy, else the string "advanced". -/
def aliyunLabel (alltextType : Option String) : String :=
  match alltextType with
  | some t => if t = "" then "advanced" else t
  | none => "advanced"

/-- Result assembly of the structured-document adapter after the remote
call: parse, filter by confidence, join the filtered texts. -/
def aliyunNormalize (alltextType : Option String) (imagePath : String)
    (raw : JsonVal) (minConf : ℚ) : Except Unit OcrResult :=
  match parseBlocksAliyun raw with
  | .error e => .error e
  | .ok blocks =>
    let filtered := confFilter minConf blocks
    .ok { backend := "aliyun", task := some (aliyunLabel alltextType),
          image_path := imagePath, blocks := filtered,
          full_text := joinTexts filtered, raw := raw }

/-- Result assembly of the vision-model adapter after the remote call. -/
def qwenNormalize (task : String) (imagePath : String)
    (raw : JsonVal) (minConf : ℚ) : Except Unit OcrResult :=
  match parseBlocksQwen raw with
  | .error e => .error e
  | .ok blocks =>
    let filtered := confFilter minConf blocks
    .ok { backend := "qwen", task := some task,
          image_path := imagePath, blocks := filtered,
          full_text := joinTexts filtered, raw := raw }

/-- Observable trace of one _execute invocation: the outcome handed to the
caller (None when the loop body never ran), the number of call attempts
made, and the sleep durations in order. -/
structure ExecTrace (E A : Type) where
  result : Option (Except E A)
  callCount : ℕ
  sleeps : List ℚ
deriving Repr

/-- The retry loop body, fuel counting the remaining iterations of
range(1, retries + 1): a successful call returns at once; a failing call
computes backoff ^ attempt, re-raises on the final attempt, and otherwise
sleeps and retries. -/
def execGo (retries : ℕ) (backoff : ℚ) (call : ℕ → Except E A) :
    ℕ → ℕ → ExecTrace E A
  | _, 0 => ⟨none, 0, []⟩
  | attempt, fuel + 1 =>
    match call attempt with
    | .ok a => ⟨some (.ok a), 1, []⟩
    | .error e =>
      if attempt = retries then ⟨some (.error e), 1, []⟩
      else
        let t := execGo retries backoff call (attempt + 1) fuel
        ⟨t.result, t.callCount + 1, backoff ^ attempt :: t.sleeps⟩

/-- The retry wrapper of both adapters: attempts numbered 1 .. retries. For the
vision-model adapter the non-success-status check is folded into the call
outcome, since its RuntimeError is raised and caught inside the same
attempt. -/
def execute (retries : ℕ) (backoff : ℚ) (call : ℕ → Except E A) : ExecTrace E A :=
  execGo retries backoff call 1 retries

/-- A point entry that converts without raising: a sequence whose first
two elements are numeric. -/
def goodPoint : JsonVal → Bool
  | .arr (a :: b :: _) => numLike a && numLike b
  | _ => false

/-- A bounding-box dict whose probed coordinate values all pass float()
without raising. -/
def bboxSafe (b : Item) : Bool :=
  numLike (dgetD b "x" (.num 0)) && numLike (dgetD b "y" (.num 0)) &&
    numLike (bboxW b) && numLike (bboxH b)

/-- Well-formed geometry for a structured-document candidate: when the
probed geometry value is a non-empty list headed by a sequence, every
entry must be a good point (the flat-number branch and the None fallback
never raise). -/
def geomSafeA (item : Item) : Bool :=
  match aliyunGeomVal item with
  | .arr (p0 :: rest) => if isSeq p0 then (p0 :: rest).all goodPoint else true
  | _ => true

/-- Well-formed geometry for a vision-model candidate node: a point list
headed by a sequence must consist of good points; otherwise, when a
dict-shaped bounding box is probed, its coordinate values must be
numeric. -/
def geomSafeQ (node : Item) : Bool :=
  match qwenGeomVal node with
  | .arr (p0 :: rest) =>
    if isSeq p0 then (p0 :: rest).all goodPoint
    else
      match qwenBboxVal node with
      | .obj b => bboxSafe b
      | _ => true
  | _ =>
    match qwenBboxVal node with
    | .obj b => bboxSafe b
    | _ => true

/-- A span with no confidence score. -/
def spanNullConf : OcrTextSpan := ⟨"hi", none, none, some 0⟩

/-- A structured-document response whose first candidate has a score but
no text-like field and whose second candidate carries text. -/
def rawDroppedFirst : JsonVal :=
  .obj [("body", .obj [("Data", .obj [("Results",
    .arr [.obj [("Score", .num (9 / 10))], .obj [("Text", .str "hi")]])])])]

/-- A structured-document response whose only candidate has a point list
headed by a sequence but containing a bare number. -/
def rawBadPolygon : JsonVal :=
  .obj [("body", .obj [("Data", .obj [("Results",
    .arr [.obj [("Text", .str "hi"),
      ("Polygon", .arr [.arr [.num 1, .num 2], .num 5])]])])])]

/-- The structured-document input of the flat-number polygon scenario. -/
def rawScenarioA : JsonVal :=
  .obj [("body", .obj [("Data", .obj [("Results",
    .arr [.obj [("Text", .str "Hello"), ("Score", .num (92 / 100)),
      ("Polygon", .arr [.num 0, .num 0, .num 10, .num 0, .num 10, .num 5,
        .num 0, .num 5])]])])])]

/-- A vision-model node carrying both a flat interleaved-number polygon
list and a dict-shaped bounding box. -/
def nodeFlatAndBbox : Item :=
  [("text", .str "a"), ("polygon", .arr [.num 1, .num 2, .num 3, .num 4]),
   ("bbox", .obj [("x", .num 0), ("y", .num 0), ("w", .num 1), ("h", .num 1)])]

/-- A vision-model node whose polygon is a nested point list. -/
def nodeNestedPoints : Item :=
  [("text", .str "a"), ("polygon", .arr [.arr [.num 1, .num 2], .arr [.num 3, .num 4]])]

/-- The keep predicate holds exactly for null confidence or confidence at
least the threshold. -/
theorem keepSpan_iff (t : ℚ) (b : OcrTextSpan) :
    keepSpan t b = true ↔ b.confidence = none ∨ ∃ c, b.confidence = some c ∧ t ≤ c := by
  unfold keepSpan
  cases h : b.confidence with
  | none => simp
  | some c => simp [h]

/-- C3: for every span sequence and threshold, the confidence filter of
both adapters returns exactly the subsequence of spans whose confidence is
null or at least the threshold (inclusive), preserving relative order; in
particular null-confidence spans are always retained. -/
theorem C3_confidence_filter_exact (t : ℚ) (l : List OcrTextSpan) :
    (confFilter t l).Sublist l ∧
      (∀ b, b ∈ confFilter t l ↔
        b ∈ l ∧ (b.confidence = none ∨ ∃ c, b.confidence = some c ∧ t ≤ c)) ∧
      (∀ b ∈ l, b.confidence = none → b ∈ confFilter t l) := by
  refine ⟨List.filter_sublist l, ?_, ?_⟩
  · intro b
    rw [confFilter, List.mem_filter, keepSpan_iff]
  · intro b hb hnone
    rw [confFilter, List.mem_filter, keepSpan_iff]
    exact ⟨hb, Or.inl hnone⟩

/-- Witness for C3 at threshold 1 and a concrete null-confidence span. -/
theorem C3_confidence_filter_exact_witness :
    spanNullConf ∈ confFilter 1 [spanNullConf] :=
  (C3_confidence_filter_exact 1 [spanNullConf]).2.2 spanNullConf
    (List.mem_singleton.mpr rfl) rfl

/-- C9: the confidence filter is idempotent at any fixed threshold. -/
theorem C9_confidence_filter_idempotent (t : ℚ) (l : List OcrTextSpan) :
    confFilter t (confFilter t l) = confFilter t l := by
  unfold confFilter
  rw [List.filter_filter]
  simp

/-- C6: bounding-box synthesis in the vision-model adapter: positive width
and height give the four corners top-left, top-right, bottom-right,
bottom-left; non-positive width or height gives None. -/
theorem C6_bbox_polygon (x y w h : ℚ) :
    (0 < w → 0 < h →
      polygonFromBbox [("x", .num x), ("y", .num y), ("w", .num w), ("h", .num h)] =
        .ok (some [(x, y), (x + w, y), (x + w, y + h), (x, y + h)])) ∧
    (w ≤ 0 ∨ h ≤ 0 →
      polygonFromBbox [("x", .num x), ("y", .num y), ("w", .num w), ("h", .num h)] =
        .ok none) := by
  constructor
  · intro hw hh
    have hw0 : w ≠ 0 := ne_of_gt hw
    have hh0 : h ≠ 0 := ne_of_gt hh
    simp [polygonFromBbox, bboxW, bboxH, dgetD, dget, pyOr, pyTruthy, toFloat, hw0, hh0,
      not_le.mpr hw, not_le.mpr hh]
  · intro hwh
    by_cases hw0 : w = 0
    · by_cases hh0 : h = 0 <;>
        simp [polygonFromBbox, bboxW, bboxH, dgetD, dget, pyOr, pyTruthy, toFloat, hw0, hh0]
    · by_cases hh0 : h = 0
      · simp [polygonFromBbox, bboxW, bboxH, dgetD, dget, pyOr, pyTruthy, toFloat, hw0, hh0]
      · simp [polygonFromBbox, bboxW, bboxH, dgetD, dget, pyOr, pyTruthy, toFloat, hw0, hh0,
          hwh]

/-- Witness for C6 at the scenario bounding box x=1, y=2, w=3, h=4 and at
a degenerate box of width 0. -/
theorem C6_bbox_polygon_witness :
    polygonFromBbox [("x", .num 1), ("y", .num 2), ("w", .num 3), ("h", .num 4)] =
      .ok (some [(1, 2), (4, 2), (4, 6), (1, 6)]) ∧
    polygonFromBbox [("x", .num 1), ("y", .num 2), ("w", .num 0), ("h", .num 4)] =
      .ok none := by
  constructor
  · exact ((C6_bbox_polygon 1 2 3 4).1 (by norm_num) (by norm_num)).trans (by norm_num)
  · exact (C6_bbox_polygon 1 2 0 4).2 (Or.inl le_rfl)

/-- C7: both adapters set full_text to the newline join of the text fields
of the post-filter blocks, in order, and to the empty string when blocks
is empty. -/
theorem C7_full_text_join :
    (∀ att ip raw minConf res, aliyunNormalize att ip raw minConf = .ok res →
      res.full_text = String.intercalate "\n" (res.blocks.map (fun b => b.text)) ∧
        (res.blocks = [] → res.full_text = "") ∧
        (aliyunCandidates raw = [] → res.blocks = [] ∧ res.full_text = "")) ∧
    (∀ task ip raw minConf res, qwenNormalize task ip raw minConf = .ok res →
      res.full_text = String.intercalate "\n" (res.blocks.map (fun b => b.text)) ∧
        (res.blocks = [] → res.full_text = "") ∧
        (qwenCandidates raw = [] → res.blocks = [] ∧ res.full_text = "")) := by
  constructor
  · intro att ip raw minConf res h
    unfold aliyunNormalize at h
    cases hp : parseBlocksAliyun raw with
    | error e => rw [hp] at h; cases h
    | ok blocks =>
      rw [hp] at h
      injection h with h2
      subst h2
      have hempty : aliyunCandidates raw = [] → blocks = [] := by
        intro hc
        unfold parseBlocksAliyun at hp
        rw [hc] at hp
        injection hp with hp2
        exact hp2.symm
      refine ⟨rfl, fun hb => ?_, fun hc => ?_⟩
      · have hb2 : confFilter minConf blocks = [] := hb
        show joinTexts (confFilter minConf blocks) = ""
        rw [hb2]
        rfl
      · have hb2 : blocks = [] := hempty hc
        subst hb2
        exact ⟨rfl, rfl⟩
  · intro task ip raw minConf res h
    unfold qwenNormalize at h
    cases hp : parseBlocksQwen raw with
    | error e => rw [hp] at h; cases h
    | ok blocks =>
      rw [hp] at h
      injection h with h2
      subst h2
      have hempty : qwenCandidates raw = [] → blocks = [] := by
        intro hc
        unfold parseBlocksQwen at hp
        rw [hc] at hp
        injection hp with hp2
        exact hp2.symm
      refine ⟨rfl, fun hb => ?_, fun hc => ?_⟩
      · have hb2 : confFilter minConf blocks = [] := hb
        show joinTexts (confFilter minConf blocks) = ""
        rw [hb2]
        rfl
      · have hb2 : blocks = [] := hempty hc
        subst hb2
        exact ⟨rfl, rfl⟩

/-- Witness for C7 at an empty structured-document response. -/
theorem C7_full_text_join_witness :
    ({ backend := "aliyun", task := some "advanced", image_path := "p", blocks := [],
       full_text := "", raw := .obj [] } : OcrResult).full_text =
      String.intercalate "\n"
        (({ backend := "aliyun", task := some "advanced", image_path := "p", blocks := [],
            full_text := "", raw := .obj [] } : OcrResult).blocks.map (fun b => b.text)) :=
  (C7_full_text_join.1 none "p" (.obj []) 0 _ rfl).1

/-- C8 counterexample: invoking the structured-document adapter in
advanced mode (no alltext type) yields task = some "advanced", a non-null
string, at a concrete input. -/
theorem C8_counterexample :
    Except.map (fun r => r.task) (aliyunNormalize none "/tmp/image.png" (.obj []) (1 / 2)) =
      .ok (some "advanced") ∧
    Except.map (fun r => r.task) (aliyunNormalize none "/tmp/image.png" (.obj []) (1 / 2)) ≠
      .ok (none : Option String) := by
  constructor
  · rfl
  · intro h
    rw [(rfl : Except.map (fun r => r.task)
      (aliyunNormalize none "/tmp/image.png" (.obj []) (1 / 2)) =
        (.ok (some "advanced") : Except Unit (Option String)))] at h
    injection h with h2
    cases h2

/-- C8 amended: in advanced mode (no explicit alltext type) the result's
task field is the string label "advanced". -/
theorem C8_task_advanced_label (ip : String) (raw : JsonVal) (minConf : ℚ)
    (res : OcrResult) (h : aliyunNormalize none ip raw minConf = .ok res) :
    res.task = some "advanced" := by
  unfold aliyunNormalize at h
  cases hp : parseBlocksAliyun raw with
  | error e => rw [hp] at h; cases h
  | ok blocks =>
    rw [hp] at h
    injection h with h2
    subst h2
    rfl

/-- Witness for the amended C8 at a concrete empty response. -/
theorem C8_task_advanced_label_witness :
    ({ backend := "aliyun", task := some "advanced", image_path := "p", blocks := [],
       full_text := "", raw := .obj [] } : OcrResult).task = some "advanced" :=
  C8_task_advanced_label "p" (.obj []) 0 _ rfl

/-- C10: when the last-probed geometry key holds an empty list, the
earlier geometry keys are falsy and (for the vision-model adapter) no
bounding-box key is present, the empty list vacuously passes the
flat-number check and the extracted polygon is the empty vertex list, not
None. -/
theorem C10_empty_last_geometry_key :
    (∀ item : Item, pyTruthy (dget item "Polygon") = false →
      pyTruthy (dget item "Quad") = false → dget item "Points" = .arr [] →
      extractPolyA item = .ok (some [])) ∧
    (∀ node : Item, pyTruthy (dget node "polygon") = false →
      pyTruthy (dget node "points") = false → dget node "quad" = .arr [] →
      dget node "bbox" = .null → dget node "bounding_box" = .null →
      dget node "box" = .null → extractPolyQ node = .ok (some [])) := by
  constructor
  · intro item h1 h2 h3
    simp [extractPolyA, aliyunGeomVal, pyOr, h1, h2, h3]
  · intro node h1 h2 h3 h4 h5 h6
    have hn : pyTruthy JsonVal.null = false := rfl
    simp [extractPolyQ, qwenGeomVal, qwenBboxVal, pyOr, h1, h2, h3, h4, h5, h6, hn]

/-- Witness for C10 at concrete one-key items. -/
theorem C10_empty_last_geometry_key_witness :
    extractPolyA [("Points", .arr [])] = .ok (some []) ∧
    extractPolyQ [("quad", .arr [])] = .ok (some []) :=
  ⟨C10_empty_last_geometry_key.1 [("Points", .arr [])] rfl rfl rfl,
   C10_empty_last_geometry_key.2 [("quad", .arr [])] rfl rfl rfl rfl rfl rfl⟩

/-- One unfolding step of the retry loop body. -/
theorem execGo_step {E A : Type} (retries : ℕ) (backoff : ℚ) (call : ℕ → Except E A)
    (attempt fuel : ℕ) :
    execGo retries backoff call attempt (fuel + 1) =
      match call attempt with
      | .ok a => ⟨some (.ok a), 1, []⟩
      | .error e =>
        if attempt = retries then ⟨some (.error e), 1, []⟩
        else
          let t := execGo retries backoff call (attempt + 1) fuel
          ⟨t.result, t.callCount + 1, backoff ^ attempt :: t.sleeps⟩ := rfl

/-- When every call fails, the loop starting at any attempt within range
returns the final attempt's failure, makes one call per remaining
iteration, and sleeps backoff ^ attempt after every non-final attempt. -/
theorem execGo_all_fail {E A : Type} (retries : ℕ) (backoff : ℚ) (f : ℕ → E) :
    ∀ fuel attempt, attempt + fuel = retries + 1 → 1 ≤ fuel →
      execGo retries backoff (fun i => (.error (f i) : Except E A)) attempt fuel =
        ⟨some (.error (f retries)), fuel,
          (List.range' attempt (fuel - 1)).map (fun a => backoff ^ a)⟩ := by
  intro fuel
  induction fuel with
  | zero => intro attempt _ hpos; exact absurd hpos (by omega)
  | succ n ih =>
    intro attempt hsum _
    by_cases hat : attempt = retries
    · have hn : n = 0 := by omega
      subst hn
      simp [execGo, hat]
    · have hn : 1 ≤ n := by omega
      obtain ⟨m, rfl⟩ : ∃ m, n = m + 1 := ⟨n - 1, by omega⟩
      have hrec := ih (attempt + 1) (by omega) hn
      rw [execGo_step]
      simp only [if_neg hat, hrec]
      rw [show m + 1 + 1 - 1 = m + 1 from rfl, List.range'_succ]
      rfl

/-- C2: when all N configured attempts fail, the caller receives the final
attempt's failure after exactly N call attempts, with exactly N - 1
backoff waits of duration backoff ^ attempt (attempt 1 .. N - 1) and no
wait after the final attempt. -/
theorem C2_retry_exhaustion {E A : Type} (retries : ℕ) (backoff : ℚ) (f : ℕ → E)
    (h : 1 ≤ retries) :
    execute retries backoff (fun i => (.error (f i) : Except E A)) =
      ⟨some (.error (f retries)), retries,
        (List.range' 1 (retries - 1)).map (fun a => backoff ^ a)⟩ := by
  unfold execute
  exact execGo_all_fail retries backoff f retries 1 (by omega) h

/-- Witness for C2 at three attempts with backoff base 2: the failure of
attempt 3 surfaces after 3 calls and 2 sleeps of durations 2 and 4. -/
theorem C2_retry_exhaustion_witness :
    execute 3 2 (fun i => (.error (toString i) : Except String Unit)) =
      ⟨some (.error "3"), 3, [2, 4]⟩ := by
  have h := @C2_retry_exhaustion String Unit 3 2 (fun i => toString i) (by norm_num)
  rw [h]
  rfl

/-- The parse loop stamps each emitted span with the enumerate index of
its item: the line indices are the positions, counted from the start
index, of the items with non-empty extracted text among all items. -/
theorem parseGo_line_index (ft : Item → String) (fc : Item → Option ℚ)
    (fp : Item → Except Unit (Option (List (ℚ × ℚ)))) :
    ∀ (items : List Item) (i : ℕ) (spans : List OcrTextSpan),
      parseGo ft fc fp i items = .ok spans →
      spans.map (fun b => b.line_index) =
        (((List.range' i items.length).zip items).filter
          (fun p => decide (ft p.2 ≠ ""))).map (fun p => some p.1) := by
  intro items
  induction items with
  | nil =>
    intro i spans h
    injection h with h2
    subst h2
    rfl
  | cons item rest ih =>
    intro i spans h
    unfold parseGo at h
    rw [List.length_cons, List.range'_succ, List.zip_cons_cons, List.filter_cons]
    by_cases ht : ft item = ""
    · rw [if_pos ht] at h
      have hres := ih (i + 1) spans h
      simp [ht, hres]
    · rw [if_neg ht] at h
      cases hp : fp item with
      | error e => rw [hp] at h; cases h
      | ok poly =>
        rw [hp] at h
        cases hr : parseGo ft fc fp (i + 1) rest with
        | error e => rw [hr] at h; cases h
        | ok restSpans =>
          rw [hr] at h
          injection h with h2
          subst h2
          have hres := ih (i + 1) restSpans hr
          simp [ht, hres]

/-- C1 amended: in both adapters each emitted span's line_index equals the
0-based position of its originating item among ALL collected candidate
items — enumerate counts dropped items too, so a dropped candidate leaves
a gap instead of being skipped over. -/
theorem C1_line_index_positions :
    (∀ raw spans, parseBlocksAliyun raw = .ok spans →
      spans.map (fun b => b.line_index) =
        (((List.range' 0 (aliyunCandidates raw).length).zip (aliyunCandidates raw)).filter
          (fun p => decide (extractTextA p.2 ≠ ""))).map (fun p => some p.1)) ∧
    (∀ raw spans, parseBlocksQwen raw = .ok spans →
      spans.map (fun b => b.line_index) =
        (((List.range' 0 (qwenCandidates raw).length).zip (qwenCandidates raw)).filter
          (fun p => decide (extractTextQ p.2 ≠ ""))).map (fun p => some p.1)) :=
  ⟨fun raw spans h =>
    parseGo_line_index extractTextA extractConfA extractPolyA (aliyunCandidates raw) 0 spans h,
   fun raw spans h =>
    parseGo_line_index extractTextQ extractConfQ extractPolyQ (qwenCandidates raw) 0 spans h⟩

/-- C1 counterexample: a first candidate with a score but no text is
dropped, yet the second candidate's span carries line_index 1, not 0 —
the index counter advances on dropped items. -/
theorem C1_counterexample :
    parseBlocksAliyun rawDroppedFirst =
      .ok [{ text := "hi", confidence := none, polygon := none, line_index := some 1 }] ∧
    (some 1 : Option ℕ) ≠ some 0 :=
  ⟨by rfl, by simp⟩

/-- Witness for the amended C1 at the dropped-first-candidate response. -/
theorem C1_line_index_positions_witness :
    ([{ text := "hi", confidence := none, polygon := none, line_index := some 1 }] :
        List OcrTextSpan).map (fun b => b.line_index) =
      (((List.range' 0 (aliyunCandidates rawDroppedFirst).length).zip
          (aliyunCandidates rawDroppedFirst)).filter
        (fun p => decide (extractTextA p.2 ≠ ""))).map (fun p => some p.1) :=
  C1_line_index_positions.1 rawDroppedFirst
    [{ text := "hi", confidence := none, polygon := none, line_index := some 1 }] (by rfl)

/-- C5 amended: the vision-model adapter probes the nested point-list
shape first, then a dict-shaped bounding box, and the flat
interleaved-number shape only after the bounding-box probe — so a node
carrying both a flat-number polygon list and a bbox gets the bbox
polygon. -/
theorem C5_probe_order (node : Item) :
    (∀ p0 rest, qwenGeomVal node = .arr (p0 :: rest) → isSeq p0 = true →
      extractPolyQ node = Except.map some (mapPoints (p0 :: rest))) ∧
    (∀ b, (∀ p0 rest, qwenGeomVal node = .arr (p0 :: rest) → isSeq p0 = false) →
      qwenBboxVal node = .obj b → extractPolyQ node = polygonFromBbox b) := by
  constructor
  · intro p0 rest hg hs
    simp [extractPolyQ, hg, hs]
  · intro b h1 hb
    unfold extractPolyQ
    cases hg : qwenGeomVal node with
    | arr ps =>
      cases ps with
      | nil => simp [hb]
      | cons p0 rest => simp [hb, h1 p0 rest hg]
    | null => simp [hb]
    | bool b2 => simp [hb]
    | num q => simp [hb]
    | str s => simp [hb]
    | obj f => simp [hb]

/-- C5 counterexample: a node carrying both a flat-number polygon list
[1, 2, 3, 4] and a unit bbox at the origin yields the bbox corners, not
the flat-number pairs. -/
theorem C5_counterexample :
    extractPolyQ nodeFlatAndBbox = .ok (some [(0, 0), (1, 0), (1, 1), (0, 1)]) ∧
    extractPolyQ nodeFlatAndBbox ≠ .ok (some [(1, 2), (3, 4)]) := by
  have h3 : extractPolyQ nodeFlatAndBbox =
      (.ok (some [((0 : ℚ), (0 : ℚ)), (0 + 1, 0), (0 + 1, 0 + 1), (0, 0 + 1)]) :
        Except Unit (Option (List (ℚ × ℚ)))) := by rfl
  have h1 : extractPolyQ nodeFlatAndBbox =
      (.ok (some [((0 : ℚ), (0 : ℚ)), (1, 0), (1, 1), (0, 1)]) :
        Except Unit (Option (List (ℚ × ℚ)))) := by rw [h3]; norm_num
  refine ⟨h1, fun h => ?_⟩
  rw [h1] at h
  simp at h

/-- Witness for the amended C5: a nested point list wins at one concrete
node, and the bbox wins over a flat-number polygon list at another. -/
theorem C5_probe_order_witness :
    extractPolyQ nodeNestedPoints =
      Except.map some (mapPoints [.arr [.num 1, .num 2], .arr [.num 3, .num 4]]) ∧
    extractPolyQ nodeFlatAndBbox =
      polygonFromBbox [("x", .num 0), ("y", .num 0), ("w", .num 1), ("h", .num 1)] := by
  constructor
  · exact (C5_probe_order nodeNestedPoints).1 (.arr [.num 1, .num 2]) [.arr [.num 3, .num 4]]
      rfl rfl
  · refine (C5_probe_order nodeFlatAndBbox).2
      [("x", .num 0), ("y", .num 0), ("w", .num 1), ("h", .num 1)] ?_ rfl
    intro p0 rest hg
    have h2 : JsonVal.arr [.num 1, .num 2, .num 3, .num 4] = .arr (p0 :: rest) := hg
    injection h2 with h3
    injection h3 with h4 h5
    rw [← h4]
    rfl

/-- A numeric-like value converts with float() without raising. -/
theorem toFloat_of_numLike (v : JsonVal) (h : numLike v = true) : ∃ q, toFloat v = .ok q := by
  cases v <;> first
  | exact ⟨_, rfl⟩
  | simp [numLike] at h

/-- A good point entry converts to a coordinate pair without raising. -/
theorem point2_of_goodPoint (p : JsonVal) (h : goodPoint p = true) :
    ∃ q, point2 p = .ok q := by
  rcases p with _ | b | q | s | l | f
  · simp [goodPoint] at h
  · simp [goodPoint] at h
  · simp [goodPoint] at h
  · simp [goodPoint] at h
  · rcases l with _ | ⟨a, _ | ⟨b2, rest⟩⟩
    · simp [goodPoint] at h
    · simp [goodPoint] at h
    · simp only [goodPoint, Bool.and_eq_true] at h
      obtain ⟨x, hx⟩ := toFloat_of_numLike a h.1
      obtain ⟨y, hy⟩ := toFloat_of_numLike b2 h.2
      exact ⟨(x, y), by simp [point2, hx, hy]⟩
  · simp [goodPoint] at h

/-- A list of good points maps to coordinate pairs without raising. -/
theorem mapPoints_of_goodPoints (ps : List JsonVal) (h : ∀ p ∈ ps, goodPoint p = true) :
    ∃ l, mapPoints ps = .ok l := by
  induction ps with
  | nil => exact ⟨[], rfl⟩
  | cons p rest ih =>
    obtain ⟨q, hq⟩ := point2_of_goodPoint p (h p (List.mem_cons_self p rest))
    obtain ⟨l, hl⟩ := ih (fun x hx => h x (List.mem_cons_of_mem _ hx))
    exact ⟨q :: l, by simp [mapPoints, hq, hl]⟩

/-- A bounding box with numeric probed coordinates synthesizes without
raising. -/
theorem polygonFromBbox_of_safe (b : Item) (h : bboxSafe b = true) :
    ∃ r, polygonFromBbox b = .ok r := by
  unfold bboxSafe at h
  simp only [Bool.and_eq_true] at h
  obtain ⟨⟨⟨hx, hy⟩, hw⟩, hh⟩ := h
  obtain ⟨x, hx2⟩ := toFloat_of_numLike _ hx
  obtain ⟨y, hy2⟩ := toFloat_of_numLike _ hy
  obtain ⟨w, hw2⟩ := toFloat_of_numLike _ hw
  obtain ⟨hv, hh2⟩ := toFloat_of_numLike _ hh
  by_cases hc : w ≤ 0 ∨ hv ≤ 0
  · exact ⟨none, by simp [polygonFromBbox, hx2, hy2, hw2, hh2, hc]⟩
  · exact ⟨some [(x, y), (x + w, y), (x + w, y + hv), (x, y + hv)],
      by simp [polygonFromBbox, hx2, hy2, hw2, hh2, hc]⟩

/-- Safe geometry makes structured-document polygon extraction total. -/
theorem extractPolyA_of_safe (item : Item) (h : geomSafeA item = true) :
    ∃ r, extractPolyA item = .ok r := by
  unfold geomSafeA at h
  unfold extractPolyA
  generalize hg : aliyunGeomVal item = g at h ⊢
  cases g with
  | arr l =>
    cases l with
    | nil => exact ⟨some [], rfl⟩
    | cons p0 rest =>
      cases hs : isSeq p0 with
      | true =>
        simp only [hs] at h
        simp only [if_true, List.all_eq_true] at h
        obtain ⟨pts, hpts⟩ := mapPoints_of_goodPoints (p0 :: rest) h
        exact ⟨some pts, by simp [hs, hpts, Except.map]⟩
      | false =>
        cases hn : (p0 :: rest).all numLike with
        | true => exact ⟨some (pairUp ((p0 :: rest).map numValOf)), by simp [hs, hn]⟩
        | false => exact ⟨none, by simp [hs, hn]⟩
  | null => exact ⟨none, rfl⟩
  | bool b2 => exact ⟨none, rfl⟩
  | num q => exact ⟨none, rfl⟩
  | str s => exact ⟨none, rfl⟩
  | obj f => exact ⟨none, rfl⟩

/-- Safe geometry makes vision-model polygon extraction total. -/
theorem extractPolyQ_of_safe (node : Item) (h : geomSafeQ node = true) :
    ∃ r, extractPolyQ node = .ok r := by
  unfold geomSafeQ at h
  unfold extractPolyQ
  generalize hg : qwenGeomVal node = g at h ⊢
  generalize hb : qwenBboxVal node = bv at h ⊢
  cases g with
  | arr l =>
    cases l with
    | nil =>
      cases bv with
      | obj b2 => exact polygonFromBbox_of_safe b2 h
      | null => exact ⟨some [], rfl⟩
      | bool b2 => exact ⟨some [], rfl⟩
      | num q => exact ⟨some [], rfl⟩
      | str s => exact ⟨some [], rfl⟩
      | arr l2 => exact ⟨some [], rfl⟩
    | cons p0 rest =>
      cases hs : isSeq p0 with
      | true =>
        simp only [hs] at h
        simp only [if_true, List.all_eq_true] at h
        obtain ⟨pts, hpts⟩ := mapPoints_of_goodPoints (p0 :: rest) h
        exact ⟨some pts, by simp [hs, hpts, Except.map]⟩
      | false =>
        simp only [hs] at h
        simp only [Bool.false_eq_true, if_false] at h
        cases bv with
        | obj b2 =>
          obtain ⟨r, hr⟩ := polygonFromBbox_of_safe b2 h
          exact ⟨r, by simp [hs, hr]⟩
        | null =>
          cases hn : (p0 :: rest).all numLike with
          | true => exact ⟨some (pairUp ((p0 :: rest).map numValOf)), by simp [hs, hn]⟩
          | false => exact ⟨none, by simp [hs, hn]⟩
        | bool b2 =>
          cases hn : (p0 :: rest).all numLike with
          | true => exact ⟨some (pairUp ((p0 :: rest).map numValOf)), by simp [hs, hn]⟩
          | false => exact ⟨none, by simp [hs, hn]⟩
        | num q =>
          cases hn : (p0 :: rest).all numLike with
          | true => exact ⟨some (pairUp ((p0 :: rest).map numValOf)), by simp [hs, hn]⟩
          | false => exact ⟨none, by simp [hs, hn]⟩
        | str s =>
          cases hn : (p0 :: rest).all numLike with
          | true => exact ⟨some (pairUp ((p0 :: rest).map numValOf)), by simp [hs, hn]⟩
          | false => exact ⟨none, by simp [hs, hn]⟩
        | arr l2 =>
          cases hn : (p0 :: rest).all numLike with
          | true => exact ⟨some (pairUp ((p0 :: rest).map numValOf)), by simp [hs, hn]⟩
          | false => exact ⟨none, by simp [hs, hn]⟩
  | null =>
    cases bv with
    | obj b2 => exact polygonFromBbox_of_safe b2 h
    | null => exact ⟨none, rfl⟩
    | bool b2 => exact ⟨none, rfl⟩
    | num q => exact ⟨none, rfl⟩
    | str s => exact ⟨none, rfl⟩
    | arr l2 => exact ⟨none, rfl⟩
  | bool b3 =>
    cases bv with
    | obj b2 => exact polygonFromBbox_of_safe b2 h
    | null => exact ⟨none, rfl⟩
    | bool b2 => exact ⟨none, rfl⟩
    | num q => exact ⟨none, rfl⟩
    | str s => exact ⟨none, rfl⟩
    | arr l2 => exact ⟨none, rfl⟩
  | num q2 =>
    cases bv with
    | obj b2 => exact polygonFromBbox_of_safe b2 h
    | null => exact ⟨none, rfl⟩
    | bool b2 => exact ⟨none, rfl⟩
    | num q => exact ⟨none, rfl⟩
    | str s => exact ⟨none, rfl⟩
    | arr l2 => exact ⟨none, rfl⟩
  | str s2 =>
    cases bv with
    | obj b2 => exact polygonFromBbox_of_safe b2 h
    | null => exact ⟨none, rfl⟩
    | bool b2 => exact ⟨none, rfl⟩
    | num q => exact ⟨none, rfl⟩
    | str s => exact ⟨none, rfl⟩
    | arr l2 => exact ⟨none, rfl⟩
  | obj f2 =>
    cases bv with
    | obj b2 => exact polygonFromBbox_of_safe b2 h
    | null => exact ⟨none, rfl⟩
    | bool b2 => exact ⟨none, rfl⟩
    | num q => exact ⟨none, rfl⟩
    | str s => exact ⟨none, rfl⟩
    | arr l2 => exact ⟨none, rfl⟩

/-- The parse loop cannot raise when polygon extraction succeeds on every
item. -/
theorem parseGo_ok_of_fp_ok (ft : Item → String) (fc : Item → Option ℚ)
    (fp : Item → Except Unit (Option (List (ℚ × ℚ)))) :
    ∀ (items : List Item) (i : ℕ), (∀ item ∈ items, ∃ r, fp item = .ok r) →
      ∃ spans, parseGo ft fc fp i items = .ok spans := by
  intro items
  induction items with
  | nil => exact fun i _ => ⟨[], rfl⟩
  | cons item rest ih =>
    intro i hall
    obtain ⟨r, hr⟩ := hall item (List.mem_cons_self item rest)
    obtain ⟨spans, hspans⟩ := ih (i + 1) (fun x hx => hall x (List.mem_cons_of_mem _ hx))
    by_cases ht : ft item = ""
    · exact ⟨spans, by simp [parseGo, ht, hspans]⟩
    · exact ⟨⟨ft item, fc item, r, some i⟩ :: spans, by simp [parseGo, ht, hr, hspans]⟩

/-- C4 amended: for every successful response tree whose candidate
geometry is well-formed (every point list headed by a sequence consists
of sequences with numeric first two elements, and every probed bbox has
numeric coordinate values), parsing never raises; missing or unexpected
fields elsewhere degrade to omitted attributes or skipped nodes. -/
theorem C4_parse_never_raises_when_geometry_safe :
    (∀ raw, (∀ item ∈ aliyunCandidates raw, geomSafeA item = true) →
      ∃ spans, parseBlocksAliyun raw = .ok spans) ∧
    (∀ raw, (∀ node ∈ qwenCandidates raw, geomSafeQ node = true) →
      ∃ spans, parseBlocksQwen raw = .ok spans) :=
  ⟨fun raw hsafe =>
    parseGo_ok_of_fp_ok extractTextA extractConfA extractPolyA (aliyunCandidates raw) 0
      (fun item hmem => extractPolyA_of_safe item (hsafe item hmem)),
   fun raw hsafe =>
    parseGo_ok_of_fp_ok extractTextQ extractConfQ extractPolyQ (qwenCandidates raw) 0
      (fun node hmem => extractPolyQ_of_safe node (hsafe node hmem))⟩

/-- C4 counterexample: a candidate whose point list is headed by a
sequence but contains the bare number 5 makes the structured-document
parse raise. -/
theorem C4_counterexample : parseBlocksAliyun rawBadPolygon = .error () := by rfl

/-- Witness for the amended C4 at the flat-number polygon scenario
response. -/
theorem C4_parse_never_raises_when_geometry_safe_witness :
    ∃ spans, parseBlocksAliyun rawScenarioA = .ok spans :=
  C4_parse_never_raises_when_geometry_safe.1 rawScenarioA (by decide)

end Ocr
